import Mathlib

/-!
Verification of the Password-Strength-Checker repository.

The Python sources are embedded shallowly: pure functions become Lean
functions over `String` / `List Char`, Python `int` scores become `Nat`
(with `Int` where subtraction may go negative), and the breach-service
collaborator becomes an explicit outcome datatype.  Character predicates
follow the ASCII character sets the sources define in `config.py`
(`string.ascii_lowercase` and friends).
-/

namespace PSC

/-- ASCII lowercase letters, `string.ascii_lowercase` (config.py, password_checker.py). -/
def LOWERCASE_CHARS : List Char := "abcdefghijklmnopqrstuvwxyz".data

/-- ASCII uppercase letters, `string.ascii_uppercase`. -/
def UPPERCASE_CHARS : List Char := "ABCDEFGHIJKLMNOPQRSTUVWXYZ".data

/-- ASCII digits, `string.digits`. -/
def DIGIT_CHARS : List Char := "0123456789".data

/-- ASCII punctuation, `string.punctuation` (32 characters). -/
def SPECIAL_CHARS : List Char := "!\"#$%&\x27()*+,-./:;<=>?@[\\]^_\x60\x7b|\x7d~".data

/-- `MIN_PASSWORD_LENGTH` (config.py). -/
def MIN_PASSWORD_LENGTH : Nat := 8

/-- `RECOMMENDED_PASSWORD_LENGTH` (config.py). -/
def RECOMMENDED_PASSWORD_LENGTH : Nat := 12

/-- ANSI color codes from the `Colors` class (config.py). -/
def Colors.RED : String := "\x1b[91m"

def Colors.YELLOW : String := "\x1b[93m"

def Colors.GREEN : String := "\x1b[92m"

/-- `check_password_length` (validators.py:29, password_checker.py:352). -/
def check_password_length (password : String) : Bool × Nat × String :=
  let length := password.length
  if length < MIN_PASSWORD_LENGTH then
    (false, 0, "Password too short: " ++ toString length ++
      " characters (minimum: " ++ toString MIN_PASSWORD_LENGTH ++ ")")
  else if length < RECOMMENDED_PASSWORD_LENGTH then
    (true, 15, "Password length acceptable: " ++ toString length ++
      " characters (recommended: " ++ toString RECOMMENDED_PASSWORD_LENGTH ++ "+)")
  else if length < 16 then
    (true, 25, "Password length good: " ++ toString length ++ " characters")
  else
    (true, 30, "Password length excellent: " ++ toString length ++ " characters")

/-- `check_uppercase` (validators.py:81, password_checker.py:388). -/
def check_uppercase (password : String) : Bool × Nat × String :=
  let has_upper := password.data.any (fun c => UPPERCASE_CHARS.contains c)
  if has_upper then
    let count := (password.data.filter (fun c => UPPERCASE_CHARS.contains c)).length
    (true, 15, "Contains uppercase letters (" ++ toString count ++ " found)")
  else
    (false, 0, "Missing uppercase letters (A-Z)")

/-- `check_lowercase` (validators.py:115, password_checker.py:414). -/
def check_lowercase (password : String) : Bool × Nat × String :=
  let has_lower := password.data.any (fun c => LOWERCASE_CHARS.contains c)
  if has_lower then
    let count := (password.data.filter (fun c => LOWERCASE_CHARS.contains c)).length
    (true, 15, "Contains lowercase letters (" ++ toString count ++ " found)")
  else
    (false, 0, "Missing lowercase letters (a-z)")

/-- `check_digits` (validators.py:149, password_checker.py:440). -/
def check_digits (password : String) : Bool × Nat × String :=
  let has_digit := password.data.any (fun c => DIGIT_CHARS.contains c)
  if has_digit then
    let count := (password.data.filter (fun c => DIGIT_CHARS.contains c)).length
    (true, 20, "Contains numeric digits (" ++ toString count ++ " found)")
  else
    (false, 0, "Missing numeric digits (0-9)")

/-- `check_special_characters` (validators.py:183, password_checker.py:466). -/
def check_special_characters (password : String) : Bool × Nat × String :=
  let has_special := password.data.any (fun c => SPECIAL_CHARS.contains c)
  if has_special then
    let count := (password.data.filter (fun c => SPECIAL_CHARS.contains c)).length
    (true, 20, "Contains special characters (" ++ toString count ++ " found)")
  else
    (false, 0, "Missing special characters (" ++
      String.mk (SPECIAL_CHARS.take 10) ++ "...)")

/-- `SCORE_THRESHOLDS` (config.py) looked up by key. -/
def SCORE_THRESHOLDS : String → Nat
  | "very_weak" => 20
  | "weak" => 40
  | "moderate" => 60
  | "strong" => 80
  | "very_strong" => 100
  | _ => 0

/-- `get_strength_category` (validators.py:225, password_checker.py:494).
The Python function takes an int that may be negative after penalties,
so the score is modelled as `Int`, clamped to 0 first as in the source. -/
def get_strength_category (score : Int) : String × String :=
  let normalized_score : Int := max 0 score
  if normalized_score < (SCORE_THRESHOLDS "very_weak" : Int) then
    ("VERY WEAK", Colors.RED)
  else if normalized_score < (SCORE_THRESHOLDS "weak" : Int) then
    ("WEAK", Colors.RED)
  else if normalized_score < (SCORE_THRESHOLDS "moderate" : Int) then
    ("MODERATE", Colors.YELLOW)
  else if normalized_score < (SCORE_THRESHOLDS "strong" : Int) then
    ("STRONG", Colors.GREEN)
  else
    ("VERY STRONG", Colors.GREEN)

/-- Rank of a strength category in the order
VERY WEAK < WEAK < MODERATE < STRONG < VERY STRONG, for stating
monotonicity of `get_strength_category`. -/
def categoryRank : String → Nat
  | "VERY WEAK" => 0
  | "WEAK" => 1
  | "MODERATE" => 2
  | "STRONG" => 3
  | "VERY STRONG" => 4
  | _ => 5

/-- Python `str.lower()` restricted to the ASCII range, which is all the
sources rely on (`Char.toLower` lowercases exactly A-Z). -/
def pyToLower (s : String) : String := String.mk (s.data.map Char.toLower)

/-- Python `str.isalpha()` restricted to ASCII letters. -/
def pyIsAlpha (c : Char) : Bool :=
  (97 ≤ c.toNat && c.toNat ≤ 122) || (65 ≤ c.toNat && c.toNat ≤ 90)

/-- Python `str.isdigit()` restricted to ASCII digits. -/
def pyIsDigit (c : Char) : Bool := 48 ≤ c.toNat && c.toNat ≤ 57

/-- `KEYBOARD_PATTERNS` as defined in config.py (used by analyzers.py). -/
def KEYBOARD_PATTERNS : List String :=
  ["qwerty", "qwertz", "qwerti", "qwertyu",
   "asdfgh", "asdfghjkl",
   "zxcvbn", "zxcvbnm",
   "12345", "123456", "1234567", "12345678",
   "01234", "234567", "345678", "456789",
   "abcdef", "abcdefg",
   "password", "passwd", "admin", "letmein"]

/-- `KEYBOARD_PATTERNS` as defined inside password_checker.py (the
monolithic module carries its own, shorter list). -/
def KEYBOARD_PATTERNS_MAIN : List String :=
  ["qwerty", "asdfgh", "zxcvbn",
   "qwertz", "asdfghjkl",
   "12345", "123456", "1234567",
   "abcdef", "password", "admin"]

/-- `detect_sequential_chars` (analyzers.py:145, password_checker.py:163):
two window scans over length-3 windows, alphabetic first (on the
lowercased string) and then numeric, appending the original-case
substring when it is not already present. -/
def detect_sequential_chars (password : String) : List String :=
  let pd := password.data
  let pl := (pyToLower password).data
  let alphaPass := (List.range (pl.length - 2)).foldl (fun acc i =>
    let c1 := pl.getD i ' '
    let c2 := pl.getD (i + 1) ' '
    let c3 := pl.getD (i + 2) ' '
    if pyIsAlpha c1 && pyIsAlpha c2 && pyIsAlpha c3 &&
        c2.toNat == c1.toNat + 1 && c3.toNat == c2.toNat + 1 then
      let pattern := String.mk ((pd.drop i).take 3)
      if acc.contains pattern then acc else acc ++ [pattern]
    else acc) []
  (List.range (pd.length - 2)).foldl (fun acc i =>
    let c1 := pd.getD i ' '
    let c2 := pd.getD (i + 1) ' '
    let c3 := pd.getD (i + 2) ' '
    if pyIsDigit c1 && pyIsDigit c2 && pyIsDigit c3 &&
        c2.toNat == c1.toNat + 1 && c3.toNat == c2.toNat + 1 then
      let pattern := String.mk ((pd.drop i).take 3)
      if acc.contains pattern then acc else acc ++ [pattern]
    else acc) alphaPass

/-- Splits a character list into maximal runs of equal characters,
left to right. -/
def groupRuns : List Char → List (List Char)
  | [] => []
  | c :: rest =>
    match groupRuns rest with
    | [] => [[c]]
    | [] :: gs => [c] :: gs
    | (d :: ds) :: gs =>
      if c = d then (c :: d :: ds) :: gs else [c] :: (d :: ds) :: gs

/-- `detect_repeated_chars` (analyzers.py:208, password_checker.py:209):
the regex `(.)\1{2,}` over `re.finditer` matches exactly the maximal runs
of 3 or more identical characters, left to right; the result is
de-duplicated preserving first-seen order. -/
def detect_repeated_chars (password : String) : List String :=
  ((groupRuns password.data).filter (fun g => 3 ≤ g.length)).foldl
    (fun acc g =>
      let pattern := String.mk g
      if acc.contains pattern then acc else acc ++ [pattern]) []

/-- One 4-character window matches the year regex
`19[5-9]\d|20[0-2]\d` (analyzers.py:292). -/
def isYearWindow (c1 c2 c3 c4 : Char) : Bool :=
  (c1 == '1' && c2 == '9' && ('5' ≤ c3 && c3 ≤ '9') && pyIsDigit c4) ||
  (c1 == '2' && c2 == '0' && ('0' ≤ c3 && c3 ≤ '2') && pyIsDigit c4)

/-- Left-to-right, non-overlapping scan of `re.finditer` for the year
regex: on a match the scan resumes after the 4 matched characters. -/
def scanYears : List Char → List String
  | c1 :: c2 :: c3 :: c4 :: rest =>
    if isYearWindow c1 c2 c3 c4 then
      String.mk [c1, c2, c3, c4] :: scanYears rest
    else
      scanYears (c2 :: c3 :: c4 :: rest)
  | _ => []

/-- `detect_common_years` (analyzers.py:252, password_checker.py:240). -/
def detect_common_years (password : String) : List String :=
  (scanYears password.data).foldl
    (fun acc y => if acc.contains y then acc else acc ++ [y]) []

/-- Index of the first occurrence of `needle` in `hay`
(Python `str.index` / the `in` operator on strings). -/
def findSub (needle : List Char) : List Char → Option Nat
  | [] => if needle.isEmpty then some 0 else none
  | c :: rest =>
    if needle.isPrefixOf (c :: rest) then some 0
    else (findSub needle rest).map (· + 1)

/-- `detect_keyboard_patterns` (analyzers.py:303, password_checker.py:272),
parametrized by the keyboard-pattern catalogue because config.py and
password_checker.py define different `KEYBOARD_PATTERNS` constants. -/
def detect_keyboard_patterns (pats : List String) (password : String) :
    List String :=
  let pd := password.data
  let pl := (pyToLower password).data
  pats.foldl (fun acc pat =>
    match findSub pat.data pl with
    | none => acc
    | some start_idx =>
      let original_pattern := String.mk ((pd.drop start_idx).take pat.length)
      if acc.contains original_pattern then acc
      else acc ++ [original_pattern]) []

/-- `PATTERN_PENALTIES` (config.py:49, password_checker.py:43) looked up
by pattern-kind key. -/
def PATTERN_PENALTIES : String → Nat
  | "sequential" => 10
  | "repeated" => 10
  | "common_year" => 5
  | "keyboard_pattern" => 15
  | _ => 0

/-- Result record of `detect_weak_patterns`. -/
structure PatternResults where
  sequential : List String
  repeated : List String
  common_year : List String
  keyboard_pattern : List String
  total_penalty : Nat
  has_patterns : Bool
  deriving Repr, DecidableEq

/-- `detect_weak_patterns` (analyzers.py:356, password_checker.py:306):
runs the four detectors, then folds over the kind/instances pairs in
insertion order, adding the kind's penalty once when its instance list is
non-empty and setting the `has_patterns` flag. -/
def detect_weak_patterns (pats : List String) (password : String) :
    PatternResults :=
  let s := detect_sequential_chars password
  let r := detect_repeated_chars password
  let y := detect_common_years password
  let k := detect_keyboard_patterns pats password
  let pairs : List (String × List String) :=
    [("sequential", s), ("repeated", r), ("common_year", y),
     ("keyboard_pattern", k)]
  let total_penalty := pairs.foldl
    (fun acc p => if p.2.isEmpty then acc else acc + PATTERN_PENALTIES p.1) 0
  let has_patterns := pairs.any (fun p => !p.2.isEmpty)
  ⟨s, r, y, k, total_penalty, has_patterns⟩

/-- Character-pool size computed inside `calculate_entropy`
(analyzers.py:79-95, password_checker.py:117-126). -/
def pool_size (password : String) : Nat :=
  (if password.data.any (fun c => LOWERCASE_CHARS.contains c) then 26 else 0) +
  (if password.data.any (fun c => UPPERCASE_CHARS.contains c) then 26 else 0) +
  (if password.data.any (fun c => DIGIT_CHARS.contains c) then 10 else 0) +
  (if password.data.any (fun c => SPECIAL_CHARS.contains c) then 32 else 0)

/-- Python `round(x, 2)`: round to the nearest multiple of 1/100
(`round` is Mathlib's round-half-up; the values proved about below are
not ties, where Python's banker rounding could differ). -/
noncomputable def round2 (x : ℝ) : ℝ := ((round (x * 100) : ℤ) : ℝ) / 100

/-- `calculate_entropy` (analyzers.py:30, password_checker.py:84):
0.0 for the empty password or an empty pool, otherwise
`round(len * log2(pool), 2)`. -/
noncomputable def calculate_entropy (password : String) : ℝ :=
  if password.data.isEmpty then 0
  else if pool_size password = 0 then 0
  else round2 ((password.length : ℝ) * Real.logb 2 (pool_size password))

/-- `ENTROPY_THRESHOLDS` (config.py:71) looked up by key. -/
def ENTROPY_THRESHOLDS : String → Nat
  | "very_low" => 28
  | "low" => 36
  | "moderate" => 60
  | "high" => 80
  | "very_high" => 100
  | _ => 0

open Classical in
/-- `get_entropy_rating` (analyzers.py:107, password_checker.py:137). -/
noncomputable def get_entropy_rating (entropy : ℝ) : String × String :=
  if entropy < (ENTROPY_THRESHOLDS "very_low" : ℝ) then ("Very Low", Colors.RED)
  else if entropy < (ENTROPY_THRESHOLDS "low" : ℝ) then ("Low", Colors.RED)
  else if entropy < (ENTROPY_THRESHOLDS "moderate" : ℝ) then ("Moderate", Colors.YELLOW)
  else if entropy < (ENTROPY_THRESHOLDS "high" : ℝ) then ("High", Colors.GREEN)
  else ("Very High", Colors.GREEN)

/-- `check_common_password` (checker.py:71), parametrized by the cached
word set (loaded externally by `load_common_passwords`; the file contents
are a collaborator input, lowercased on load). -/
def check_common_password (cache : List String) (password : String) :
    Bool × String :=
  if pyToLower password ∈ cache then
    (true, "Password found in common passwords database - HIGH RISK")
  else
    (false, "Password not found in common passwords database")

/-- Digit grouping of Python format `f"{count:,}"`, on the reversed
digit list: a comma after every third digit. -/
def groupDigitsRev : List Char → List Char
  | a :: b :: c :: d :: rest => a :: b :: c :: ',' :: groupDigitsRev (d :: rest)
  | l => l

/-- Python `f"{n:,}"` for a natural number. -/
def formatThousands (n : Nat) : String :=
  String.mk (groupDigitsRev (toString n).data.reverse).reverse

/-- Severity tier chosen in `check_pwned_password` (checker.py:275-282). -/
def severityFor (count : Nat) : String :=
  if 100000 < count then "CRITICAL RISK"
  else if 10000 < count then "VERY HIGH RISK"
  else if 1000 < count then "HIGH RISK"
  else "MODERATE RISK"

/-- Message built for a found password (checker.py:284). -/
def foundMessage (count : Nat) : String :=
  "Password found in " ++ formatThousands count ++ " data breaches - " ++
    severityFor count

/-- Python `line.split(":")`. -/
def splitOnColon : List Char → List (List Char)
  | [] => [[]]
  | c :: rest =>
    let r := splitOnColon rest
    if c = ':' then [] :: r
    else
      match r with
      | [] => [[c]]
      | h :: t => (c :: h) :: t

/-- Python `int(s)` restricted to unsigned digit strings (the HIBP
response counts); anything else raises ValueError, modelled as `none`. -/
def intParse? (l : List Char) : Option Nat :=
  if !l.isEmpty && l.all pyIsDigit then
    some (l.foldl (fun acc c => acc * 10 + (c.toNat - 48)) 0)
  else none

/-- Outcome of the HTTP call to the breach-lookup collaborator: the
`requests.get` call either times out, raises a transport error (carrying
the exception class name), or returns a status code and response lines. -/
inductive ApiOutcome where
  | timeout
  | requestError (name : String)
  | success (status : Nat) (body : List String)
  deriving Repr, DecidableEq

/-- The response-scanning loop of `check_pwned_password`
(checker.py:263-290).  A line without a colon is skipped; a line whose
`split(":")` does not have exactly two parts makes the tuple unpacking
raise ValueError (caught by the outer handler, modelled as `.error`);
a suffix match parses the count and returns the found result. -/
def scanLines (hash_suffix : List Char) :
    List String → Except String (Bool × String × Nat)
  | [] => .ok (false, "Password not found in known data breaches", 0)
  | line :: rest =>
    if line.data.contains ':' then
      match splitOnColon line.data with
      | [returned_suffix, cnt] =>
        if returned_suffix = hash_suffix then
          match intParse? cnt with
          | some count => .ok (true, foundMessage count, count)
          | none => .error "ValueError"
        else scanLines hash_suffix rest
      | _ => .error "ValueError"
    else scanLines hash_suffix rest

/-- `check_pwned_password` (checker.py:197).  The SHA-1 digest of the
password (computed by `hashlib`, an external primitive) is taken as the
given uppercase hex string; the function keeps its suffix after the
5-character prefix sent to the collaborator, and handles every
collaborator outcome without propagating an exception. -/
def check_pwned_password (sha1hex : String) (outcome : ApiOutcome) :
    Bool × String × Nat :=
  let hash_suffix := sha1hex.data.drop 5
  match outcome with
  | .timeout => (false, "Breach check timed out - skipping", 0)
  | .requestError name => (false, "Breach check unavailable - " ++ name, 0)
  | .success status body =>
    if status ≠ 200 then
      (false, "API check unavailable (status: " ++ toString status ++ ")", 0)
    else
      match scanLines hash_suffix body with
      | .ok r => r
      | .error name => (false, "Breach check error - " ++ name, 0)

/-- One entry of the `results["checks"]` list (password_checker.py:563). -/
structure CheckResult where
  name : String
  passed : Bool
  score : Nat
  message : String
  deriving Repr, DecidableEq

/-- One entry of the `results["penalties"]` list (password_checker.py:591),
also covering the spec's unified Penalty record for common-password and
breach penalties. -/
structure Penalty where
  type : String
  instances : List String
  penalty : Nat
  deriving Repr, DecidableEq

/-- The penalty-description loop of `analyze_password`
(password_checker.py:587-595): one entry per pattern kind with instances,
the kind name title-cased. -/
def patternPenaltyList (pr : PatternResults) : List Penalty :=
  (if pr.sequential.isEmpty then []
   else [⟨"Sequential", pr.sequential, PATTERN_PENALTIES "sequential"⟩]) ++
  (if pr.repeated.isEmpty then []
   else [⟨"Repeated", pr.repeated, PATTERN_PENALTIES "repeated"⟩]) ++
  (if pr.common_year.isEmpty then []
   else [⟨"Common Year", pr.common_year, PATTERN_PENALTIES "common_year"⟩]) ++
  (if pr.keyboard_pattern.isEmpty then []
   else [⟨"Keyboard Pattern", pr.keyboard_pattern,
          PATTERN_PENALTIES "keyboard_pattern"⟩])

/-- The `results` dict built by `analyze_password` (password_checker.py:538). -/
structure AnalysisResults where
  checks : List CheckResult
  base_score : Nat
  penalties : List Penalty
  total_penalty : Nat
  final_score : Int
  entropy : ℝ
  entropy_rating : String
  entropy_color : String
  strength : String
  color : String
  passed_all_checks : Bool
  has_weak_patterns : Bool

/-- The five named checks run by `analyze_password`
(password_checker.py:553-559); validators.py defines the same five
functions with identical logic. -/
def namedChecks (password : String) : List (String × (Bool × Nat × String)) :=
  [("Length", check_password_length password),
   ("Uppercase", check_uppercase password),
   ("Lowercase", check_lowercase password),
   ("Digits", check_digits password),
   ("Special Chars", check_special_characters password)]

/-- `analyze_password` (password_checker.py:521): character checks, base
score, entropy, pattern detection with penalties, clamped final score and
strength category.  It invokes neither `check_common_password` nor
`check_pwned_password`.  Uses the monolith's own `KEYBOARD_PATTERNS`. -/
noncomputable def analyze_password (password : String) : AnalysisResults :=
  let checkAssoc := namedChecks password
  let checks := checkAssoc.map fun nc => CheckResult.mk nc.1 nc.2.1 nc.2.2.1 nc.2.2.2
  let base_score : Nat := checkAssoc.foldl (fun acc nc => acc + nc.2.2.1) 0
  let passed_all_checks := checkAssoc.foldl (fun acc nc => acc && nc.2.1) true
  let entropy := calculate_entropy password
  let er := get_entropy_rating entropy
  let pattern_results := detect_weak_patterns KEYBOARD_PATTERNS_MAIN password
  let has_weak_patterns := pattern_results.has_patterns
  let total_penalty :=
    if pattern_results.has_patterns then pattern_results.total_penalty else 0
  let penalties :=
    if pattern_results.has_patterns then patternPenaltyList pattern_results else []
  let final_score : Int := max 0 ((base_score : Int) - (total_penalty : Int))
  let sc := get_strength_category final_score
  ⟨checks, base_score, penalties, total_penalty, final_score,
   entropy, er.1, er.2, sc.1, sc.2, passed_all_checks, has_weak_patterns⟩

/-- The per-check branch of the failed-validation loop in
`generate_recommendations` (checker.py:143-157): the if/elif dispatch on
the check name; unknown names contribute nothing. -/
def recForFailedCheck (password : String) (name : String) : List String :=
  if name = "Length" then
    ["Increase password length to at least 12 characters (currently " ++
      toString password.length ++ ")"]
  else if name = "Uppercase" then ["Add uppercase letters (A-Z)"]
  else if name = "Lowercase" then ["Add lowercase letters (a-z)"]
  else if name = "Digits" then ["Add numeric digits (0-9)"]
  else if name = "Special Chars" then ["Add special characters (!@#$%^&*)"]
  else []

open Classical in
/-- `generate_recommendations` (checker.py:119).  The Python function
reads fields of the aggregated results dict; those fields are passed here
as named arguments (`password` backs `results.get("password", "")`,
which the orchestrator supplies). -/
noncomputable def generate_recommendations (password : String)
    (checks : List CheckResult) (has_weak_patterns is_common is_pwned : Bool)
    (pwned_count : Nat) (entropy : ℝ) (final_score : Int) : List String :=
  let recs := checks.foldl
    (fun acc c => if c.passed then acc
                  else acc ++ recForFailedCheck password c.name) []
  let recs := recs ++ (if has_weak_patterns then
    ["Avoid predictable patterns (sequential chars, repetition, common words)"]
    else [])
  let recs := recs ++ (if is_common then
    ["CRITICAL: Never use common passwords - this one is in the top 10,000 most used"]
    else [])
  let recs := recs ++ (if is_pwned then
    ["CRITICAL: Password exposed in " ++ formatThousands pwned_count ++
      " data breaches - change immediately"]
    else [])
  let recs := recs ++ (if entropy < 60 then
    ["Increase randomness - use a mix of unrelated characters"] else [])
  recs ++ (if final_score < 60 then
    ["Consider using a passphrase (4+ random words) or password manager"]
    else [])

/-- Modelled from the spec: the tiered breach penalty of §4.5
("Tiered penalty by count: >100000 → 40, >10000 → 35, >1000 → 30,
else 25").  No code under src/ applies this penalty; only the severity
wording in `check_pwned_password` reflects the same tiers. -/
def breach_penalty (count : Nat) : Nat :=
  if 100000 < count then 40
  else if 10000 < count then 35
  else if 1000 < count then 30
  else 25

/-- Modelled from the spec: the redacted placeholder of §4.4 ("the
matched password value itself must NOT appear in the returned instance
list (report a redacted placeholder)").  No code under src/ builds this
penalty record; the placeholder is chosen so that it never equals the
password, as the spec mandates. -/
def redactedInstance (password : String) : String :=
  if password = "<redacted>" then "<redacted*>" else "<redacted>"

/-- The aggregate analysis record assembled by the scoring pipeline
(spec §3 AnalysisResult; display.py reads exactly these fields). -/
structure FullResults where
  checks : List CheckResult
  base_score : Nat
  entropy : ℝ
  pattern_results : PatternResults
  is_common : Bool
  common_password_message : String
  is_pwned : Bool
  pwned_message : String
  pwned_count : Nat
  penalties : List Penalty
  total_penalty : Nat
  final_score : Int
  strength : String
  recommendations : List String

open Classical in
/-- Modelled from the spec: the ScoringEngine orchestration of §4.6,
which is absent from src/ (password_checker.py's `analyze_password` stops
after step 3, while display.py and checker.py consume the full record).
Steps 1-3 use the modular components (validators.py, analyzers.py with
config.py's `KEYBOARD_PATTERNS`); step 4 conditionally adds the fixed
50-point "Common Password" penalty with a redacted instance list; step 5
conditionally adds the tiered breach penalty; steps 6-8 compute the
clamped final score, the strength category, and the gated
recommendations. -/
noncomputable def full_analysis (cache : List String) (sha1hex : String)
    (outcome : ApiOutcome) (password : String) : FullResults :=
  let checkAssoc := namedChecks password
  let checks := checkAssoc.map fun nc => CheckResult.mk nc.1 nc.2.1 nc.2.2.1 nc.2.2.2
  let base_score : Nat := checkAssoc.foldl (fun acc nc => acc + nc.2.2.1) 0
  let entropy := calculate_entropy password
  let pr := detect_weak_patterns KEYBOARD_PATTERNS password
  let common := check_common_password cache password
  let pwned := check_pwned_password sha1hex outcome
  let total_penalty := pr.total_penalty +
    (if common.1 then 50 else 0) +
    (if pwned.1 then breach_penalty pwned.2.2 else 0)
  let penalties := patternPenaltyList pr ++
    (if common.1 then [⟨"Common Password", [redactedInstance password], 50⟩]
     else []) ++
    (if pwned.1 then
      [⟨"Data Breach", [redactedInstance password], breach_penalty pwned.2.2⟩]
     else [])
  let final_score : Int := max 0 ((base_score : Int) - (total_penalty : Int))
  let strength := (get_strength_category final_score).1
  let recommendations :=
    if final_score < 80 ∨ common.1 ∨ pwned.1 then
      generate_recommendations password checks pr.has_patterns common.1
        pwned.1 pwned.2.2 entropy final_score
    else []
  ⟨checks, base_score, entropy, pr, common.1, common.2, pwned.1, pwned.2.1,
   pwned.2.2, penalties, total_penalty, final_score, strength,
   recommendations⟩

/-- The character pool as the spec words it (§4.2): "Pool size = sum of
26 if any lowercase present, 26 if any uppercase, 10 if any digit,
32 if any special", written independently of `pool_size` for a
refinement comparison. -/
def specPoolSize (password : String) : Nat :=
  (if password.data.any (fun c => "abcdefghijklmnopqrstuvwxyz".data.contains c)
   then 26 else 0) +
  (if password.data.any (fun c => "ABCDEFGHIJKLMNOPQRSTUVWXYZ".data.contains c)
   then 26 else 0) +
  (if password.data.any (fun c => "0123456789".data.contains c)
   then 10 else 0) +
  (if password.data.any (fun c =>
      "!\"#$%&\x27()*+,-./:;<=>?@[\\]^_\x60\x7b|\x7d~".data.contains c)
   then 32 else 0)

/-- The entropy estimator as the spec words it (§4.2), written
independently of `calculate_entropy` for a refinement comparison:
"If password is empty or pool size is 0, entropy = 0.0.  Otherwise
entropy = length(password) * log2(poolSize), rounded to 2 decimal
places." -/
noncomputable def specEntropy (password : String) : ℝ :=
  if password.length = 0 ∨ specPoolSize password = 0 then 0
  else round2 ((password.length : ℝ) * Real.logb 2 (specPoolSize password : ℝ))

/-! ## Theorems -/

/-- Claim C6: `get_strength_category` maps 19 to VERY WEAK, 20 and 39 to
WEAK, 40 and 59 to MODERATE, 60 and 79 to STRONG, and 80 to VERY STRONG,
and is monotone in the score with respect to the category order
VERY WEAK < WEAK < MODERATE < STRONG < VERY STRONG. -/
theorem C6_strength_category_boundaries_and_monotone :
    ((get_strength_category 19).1 = "VERY WEAK" ∧
     (get_strength_category 20).1 = "WEAK" ∧
     (get_strength_category 39).1 = "WEAK" ∧
     (get_strength_category 40).1 = "MODERATE" ∧
     (get_strength_category 59).1 = "MODERATE" ∧
     (get_strength_category 60).1 = "STRONG" ∧
     (get_strength_category 79).1 = "STRONG" ∧
     (get_strength_category 80).1 = "VERY STRONG") ∧
    ∀ s1 s2 : Int, s1 ≤ s2 →
      categoryRank (get_strength_category s1).1 ≤
        categoryRank (get_strength_category s2).1 := by
  constructor
  · refine ⟨rfl, rfl, rfl, rfl, rfl, rfl, rfl, rfl⟩
  · intro s1 s2 h
    simp only [get_strength_category, SCORE_THRESHOLDS]
    split_ifs <;> simp only [categoryRank] <;> omega

/-- Witness for C6 at scores 0 ≤ 1. -/
theorem C6_witness :
    (0 : Int) ≤ 1 ∧
      categoryRank (get_strength_category 0).1 ≤
        categoryRank (get_strength_category 1).1 :=
  ⟨by decide, C6_strength_category_boundaries_and_monotone.2 0 1 (by decide)⟩

/-- Claim C4 is false on the code: the alphabetic window scan runs over
the whole password before the numeric scan, so on "abc123xyz" the
pattern "xyz" is appended before "123"; the result is not
["abc", "123", "xyz"]. -/
theorem C4_counterexample :
    detect_sequential_chars "abc123xyz" ≠ ["abc", "123", "xyz"] := by
  decide

/-- Claim C4 (amended): sequential-pattern detection on "abc123xyz"
returns exactly ["abc", "xyz", "123"], each pattern once — alphabetic
patterns in order of appearance first, then numeric patterns. -/
theorem C4_amended :
    detect_sequential_chars "abc123xyz" = ["abc", "xyz", "123"] := by
  decide

theorem check_password_length_score_le (password : String) :
    (check_password_length password).2.1 ≤ 30 := by
  simp only [check_password_length]
  split_ifs <;> norm_num

theorem check_uppercase_score_le (password : String) :
    (check_uppercase password).2.1 ≤ 15 := by
  simp only [check_uppercase]
  split_ifs <;> norm_num

theorem check_lowercase_score_le (password : String) :
    (check_lowercase password).2.1 ≤ 15 := by
  simp only [check_lowercase]
  split_ifs <;> norm_num

theorem check_digits_score_le (password : String) :
    (check_digits password).2.1 ≤ 20 := by
  simp only [check_digits]
  split_ifs <;> norm_num

theorem check_special_characters_score_le (password : String) :
    (check_special_characters password).2.1 ≤ 20 := by
  simp only [check_special_characters]
  split_ifs <;> norm_num

theorem namedChecks_base_score (password : String) :
    (namedChecks password).foldl (fun acc nc => acc + nc.2.2.1) 0 =
      (check_password_length password).2.1 + (check_uppercase password).2.1 +
      (check_lowercase password).2.1 + (check_digits password).2.1 +
      (check_special_characters password).2.1 := by
  simp [namedChecks, List.foldl]

theorem base_score_le_100 (password : String) :
    (namedChecks password).foldl (fun acc nc => acc + nc.2.2.1) 0 ≤ 100 := by
  rw [namedChecks_base_score]
  have h1 := check_password_length_score_le password
  have h2 := check_uppercase_score_le password
  have h3 := check_lowercase_score_le password
  have h4 := check_digits_score_le password
  have h5 := check_special_characters_score_le password
  omega

/-- Claim C1: for every password, `analyze_password` satisfies
`final_score = max(0, base_score - total_penalty)` and
`0 ≤ final_score ≤ base_score ≤ 100`. -/
theorem C1_final_score_invariants (password : String) :
    (analyze_password password).final_score =
      max 0 (((analyze_password password).base_score : Int) -
        ((analyze_password password).total_penalty : Int)) ∧
    0 ≤ (analyze_password password).final_score ∧
    (analyze_password password).final_score ≤
      ((analyze_password password).base_score : Int) ∧
    (analyze_password password).base_score ≤ 100 := by
  have hb := base_score_le_100 password
  simp only [analyze_password]
  refine ⟨trivial, ?_, ?_, hb⟩
  · exact le_max_left 0 _
  · exact max_le (by positivity) (by omega)

/-- Claim C10: `analyze_password` is deterministic and depends only on
its password argument — equal passwords give equal results for any
word-list contents and any breach-service state (its embedding takes
neither as an input, mirroring that the function invokes neither the
common-password check nor the breach check). -/
theorem C10_analyze_password_deterministic (cache : List String)
    (sha1hex : String) (outcome : ApiOutcome) (p q : String) (h : p = q) :
    analyze_password p = analyze_password q := by
  rw [h]

/-- Witness for C10 at a concrete pair of equal passwords. -/
theorem C10_witness :
    "Password123" = "Password123" ∧
      analyze_password "Password123" = analyze_password "Password123" :=
  ⟨rfl, C10_analyze_password_deterministic [] "" ApiOutcome.timeout
    "Password123" "Password123" rfl⟩

/-- Claim C9: `detect_weak_patterns` adds each kind's fixed weight
(sequential 10, repeated 10, common year 5, keyboard 15) exactly once
per kind with at least one instance, never multiplied by instance count,
and reports `has_patterns` iff some kind has an instance. -/
theorem C9_pattern_penalty_aggregation (pats : List String)
    (password : String) :
    (detect_weak_patterns pats password).total_penalty =
      (if (detect_weak_patterns pats password).sequential = [] then 0 else 10) +
      (if (detect_weak_patterns pats password).repeated = [] then 0 else 10) +
      (if (detect_weak_patterns pats password).common_year = [] then 0 else 5) +
      (if (detect_weak_patterns pats password).keyboard_pattern = [] then 0
       else 15) ∧
    ((detect_weak_patterns pats password).has_patterns = true ↔
      ((detect_weak_patterns pats password).sequential ≠ [] ∨
       (detect_weak_patterns pats password).repeated ≠ [] ∨
       (detect_weak_patterns pats password).common_year ≠ [] ∨
       (detect_weak_patterns pats password).keyboard_pattern ≠ [])) := by
  simp only [detect_weak_patterns, List.foldl, List.any_cons, List.any_nil,
    PATTERN_PENALTIES]
  constructor
  · by_cases hs : detect_sequential_chars password = [] <;>
      by_cases hr : detect_repeated_chars password = [] <;>
      by_cases hy : detect_common_years password = [] <;>
      by_cases hk : detect_keyboard_patterns pats password = [] <;>
      simp [hs, hr, hy, hk, List.isEmpty_iff]
  · by_cases hs : detect_sequential_chars password = [] <;>
      by_cases hr : detect_repeated_chars password = [] <;>
      by_cases hy : detect_common_years password = [] <;>
      by_cases hk : detect_keyboard_patterns pats password = [] <;>
      simp [hs, hr, hy, hk, List.isEmpty_iff]

theorem logb_two_26_lb : (47 : ℝ) / 10 ≤ Real.logb 2 26 := by
  have h2 : (0 : ℝ) < Real.log 2 := Real.log_pos (by norm_num)
  rw [Real.logb, div_le_div_iff (by norm_num) h2]
  have hpow : (2 : ℝ) ^ (47 : ℕ) ≤ 26 ^ (10 : ℕ) := by norm_num
  have h := (Real.log_le_log_iff (by positivity) (by positivity)).mpr hpow
  rw [Real.log_pow, Real.log_pow] at h
  push_cast at h
  linarith

theorem logb_two_26_ub : Real.logb 2 26 < (3761 : ℝ) / 800 := by
  have h2 : (0 : ℝ) < Real.log 2 := Real.log_pos (by norm_num)
  rw [Real.logb, div_lt_div_iff h2 (by norm_num)]
  have hpow : (26 : ℝ) ^ (800 : ℕ) < 2 ^ (3761 : ℕ) := by norm_num
  have h := (Real.log_lt_log_iff (by positivity) (by positivity)).mpr hpow
  rw [Real.log_pow, Real.log_pow] at h
  push_cast at h
  linarith

theorem round_400_logb_26 : round ((400 : ℝ) * Real.logb 2 26) = 1880 := by
  have lb := logb_two_26_lb
  have ub := logb_two_26_ub
  rw [round_eq]
  refine Int.floor_eq_iff.mpr ⟨?_, ?_⟩ <;> push_cast <;> linarith

theorem specPoolSize_eq_pool_size (password : String) :
    specPoolSize password = pool_size password := rfl

theorem calculate_entropy_eq_specEntropy (password : String) :
    calculate_entropy password = specEntropy password := by
  rw [calculate_entropy, specEntropy, specPoolSize_eq_pool_size]
  by_cases hd : password.data = []
  · have hlen : password.length = 0 := by
      simp [String.length, hd]
    simp [hd, hlen]
  · have hlen : password.length ≠ 0 := by
      show password.data.length ≠ 0
      exact fun h => hd (List.length_eq_zero.mp h)
    by_cases hp : pool_size password = 0 <;>
      simp [List.isEmpty_iff, hd, hlen, hp]

/-- Claim C8: `calculate_entropy` agrees with the spec's formula — 0.0
for the empty password or empty pool, otherwise
`len * log2(poolSize)` rounded to 2 decimals with pool contributions
26/26/10/32 — and in particular maps "" to 0.0 and "aaaa" to 18.80. -/
theorem C8_entropy :
    (∀ password, calculate_entropy password = specEntropy password) ∧
    calculate_entropy "" = 0 ∧
    calculate_entropy "aaaa" = 18.8 := by
  refine ⟨calculate_entropy_eq_specEntropy, by simp [calculate_entropy], ?_⟩
  have hpool : pool_size "aaaa" = 26 := by decide
  have hne : (("aaaa" : String).data.isEmpty) = false := by decide
  have hlen : ("aaaa" : String).length = 4 := by decide
  simp only [calculate_entropy, hpool, hne, Bool.false_eq_true, if_false,
    hlen, round2]
  norm_num
  rw [show (4 : ℝ) * Real.logb 2 26 * 100 = 400 * Real.logb 2 26 by ring,
    round_400_logb_26]
  norm_num

theorem redactedInstance_ne (password : String) :
    redactedInstance password ≠ password := by
  unfold redactedInstance
  split_ifs with h
  · rw [h]; decide
  · exact fun he => h he.symm

theorem string_ne_of_head (s t : String) (c d : Char)
    (hc : s.data.head? = some c) (hd : t.data.head? = some d)
    (hcd : c ≠ d) : s ≠ t := by
  intro he
  rw [he, hd] at hc
  exact hcd (Option.some.inj hc).symm

theorem apiStatusMsg_ne_notFound (status : Nat) :
    ("API check unavailable (status: " ++ toString status ++ ")") ≠
      "Password not found in known data breaches" :=
  string_ne_of_head _ _ 'A' 'P' rfl rfl (by decide)

theorem requestErrMsg_ne_notFound (name : String) :
    ("Breach check unavailable - " ++ name) ≠
      "Password not found in known data breaches" :=
  string_ne_of_head _ _ 'B' 'P' rfl rfl (by decide)

theorem filter_patternPenaltyList_common (pr : PatternResults) :
    (patternPenaltyList pr).filter (fun p => p.type == "Common Password") =
      [] := by
  unfold patternPenaltyList
  by_cases e1 : pr.sequential.isEmpty <;>
    by_cases e2 : pr.repeated.isEmpty <;>
    by_cases e3 : pr.common_year.isEmpty <;>
    by_cases e4 : pr.keyboard_pattern.isEmpty <;>
    simp +decide [e1, e2, e3, e4, List.filter_append, List.filter]

theorem filter_patternPenaltyList_breach (pr : PatternResults) :
    (patternPenaltyList pr).filter (fun p => p.type == "Data Breach") =
      [] := by
  unfold patternPenaltyList
  by_cases e1 : pr.sequential.isEmpty <;>
    by_cases e2 : pr.repeated.isEmpty <;>
    by_cases e3 : pr.common_year.isEmpty <;>
    by_cases e4 : pr.keyboard_pattern.isEmpty <;>
    simp +decide [e1, e2, e3, e4, List.filter_append, List.filter]

/-- Claim C2: a password that is case-insensitively in the loaded
common-password set is flagged common, draws exactly one fixed 50-point
penalty labeled "Common Password", and the password value itself never
appears in that penalty's instance list (a redacted placeholder is
reported instead). -/
theorem C2_common_password_penalty (cache : List String) (sha1hex : String)
    (outcome : ApiOutcome) (password : String)
    (h : pyToLower password ∈ cache) :
    (full_analysis cache sha1hex outcome password).is_common = true ∧
    (full_analysis cache sha1hex outcome password).penalties.filter
        (fun p => p.type == "Common Password") =
      [⟨"Common Password", [redactedInstance password], 50⟩] ∧
    ∀ p ∈ (full_analysis cache sha1hex outcome password).penalties.filter
        (fun p => p.type == "Common Password"),
      password ∉ p.instances := by
  have hc : check_common_password cache password =
      (true, "Password found in common passwords database - HIGH RISK") := by
    simp [check_common_password, h]
  simp only [full_analysis, hc, List.filter_append,
    filter_patternPenaltyList_common]
  refine ⟨by trivial, ?_, ?_⟩
  · by_cases hp : (check_pwned_password sha1hex outcome).1 <;>
      simp +decide [hp, List.filter]
  · intro p hp
    by_cases hb : (check_pwned_password sha1hex outcome).1 <;>
      simp +decide [hb, List.filter] at hp <;>
      · rw [hp]
        simp only [List.mem_singleton]
        exact fun he => redactedInstance_ne password he.symm

/-- Witness for C2: "Password123" against a word list containing
"password123". -/
theorem C2_witness :
    pyToLower "Password123" ∈ ["password123"] ∧
      ((full_analysis ["password123"] "" ApiOutcome.timeout
          "Password123").is_common = true ∧
       (full_analysis ["password123"] "" ApiOutcome.timeout
          "Password123").penalties.filter
           (fun p => p.type == "Common Password") =
         [⟨"Common Password", [redactedInstance "Password123"], 50⟩] ∧
       ∀ p ∈ (full_analysis ["password123"] "" ApiOutcome.timeout
          "Password123").penalties.filter
           (fun p => p.type == "Common Password"),
         "Password123" ∉ p.instances) :=
  ⟨by decide, C2_common_password_penalty ["password123"] "" ApiOutcome.timeout
    "Password123" (by decide)⟩

/-- Claim C3: a password found in the breach database with occurrence
count c draws a breach penalty of 40 points if c > 100000, 35 if
c > 10000, 30 if c > 1000, and 25 otherwise; the penalty lands in the
penalty list and in the total. -/
theorem C3_breach_penalty_tiers (cache : List String) (sha1hex : String)
    (body : List String) (password msg : String) (c : Nat)
    (h : check_pwned_password sha1hex (ApiOutcome.success 200 body) =
      (true, msg, c)) :
    (full_analysis cache sha1hex (ApiOutcome.success 200 body)
        password).is_pwned = true ∧
    (full_analysis cache sha1hex (ApiOutcome.success 200 body)
        password).penalties.filter (fun p => p.type == "Data Breach") =
      [⟨"Data Breach", [redactedInstance password],
        if 100000 < c then 40 else if 10000 < c then 35
        else if 1000 < c then 30 else 25⟩] ∧
    (full_analysis cache sha1hex (ApiOutcome.success 200 body)
        password).total_penalty =
      (detect_weak_patterns KEYBOARD_PATTERNS password).total_penalty +
        (if (check_common_password cache password).1 then 50 else 0) +
        (if 100000 < c then 40 else if 10000 < c then 35
         else if 1000 < c then 30 else 25) := by
  simp only [full_analysis, h, List.filter_append,
    filter_patternPenaltyList_breach, breach_penalty]
  refine ⟨by trivial, ?_, by trivial⟩
  by_cases hcom : (check_common_password cache password).1 <;>
    simp +decide [hcom, List.filter]

/-- Witness for C3: suffix 0FF found with count 123456 (> 100000). -/
theorem C3_witness :
    check_pwned_password "ABCDE0FF"
        (ApiOutcome.success 200 ["0FF:123456"]) =
      (true, "Password found in 123,456 data breaches - CRITICAL RISK",
        123456) ∧
      ((full_analysis [] "ABCDE0FF" (ApiOutcome.success 200 ["0FF:123456"])
          "pw").is_pwned = true ∧
       (full_analysis [] "ABCDE0FF" (ApiOutcome.success 200 ["0FF:123456"])
          "pw").penalties.filter (fun p => p.type == "Data Breach") =
         [⟨"Data Breach", [redactedInstance "pw"],
           if 100000 < 123456 then 40 else if 10000 < 123456 then 35
           else if 1000 < 123456 then 30 else 25⟩] ∧
       (full_analysis [] "ABCDE0FF" (ApiOutcome.success 200 ["0FF:123456"])
          "pw").total_penalty =
         (detect_weak_patterns KEYBOARD_PATTERNS "pw").total_penalty +
           (if (check_common_password [] "pw").1 then 50 else 0) +
           (if 100000 < 123456 then 40 else if 10000 < 123456 then 35
            else if 1000 < 123456 then 30 else 25)) :=
  ⟨by decide, C3_breach_penalty_tiers [] "ABCDE0FF" ["0FF:123456"] "pw"
    "Password found in 123,456 data breaches - CRITICAL RISK" 123456
    (by decide)⟩

/-- Claim C7: on any collaborator failure — timeout, transport error, or
non-200 response — `check_pwned_password` returns found = false and
count = 0 (its Python body catches every such condition, so no exception
aborts the analysis; the embedding is a total function), with a message
distinguishable from the genuine not-found message, and contributes zero
breach penalty to the analysis. -/
theorem C7_breach_failure_fail_open (cache : List String)
    (sha1hex password : String) (o : ApiOutcome)
    (h : o = ApiOutcome.timeout ∨ (∃ n, o = ApiOutcome.requestError n) ∨
      ∃ s b, o = ApiOutcome.success s b ∧ s ≠ 200) :
    (check_pwned_password sha1hex o).1 = false ∧
    (check_pwned_password sha1hex o).2.2 = 0 ∧
    (check_pwned_password sha1hex o).2.1 ≠
      "Password not found in known data breaches" ∧
    (full_analysis cache sha1hex o password).is_pwned = false ∧
    (full_analysis cache sha1hex o password).penalties.filter
      (fun p => p.type == "Data Breach") = [] ∧
    (full_analysis cache sha1hex o password).total_penalty =
      (detect_weak_patterns KEYBOARD_PATTERNS password).total_penalty +
        (if (check_common_password cache password).1 then 50 else 0) := by
  have hc : ∃ m, check_pwned_password sha1hex o = (false, m, 0) ∧
      m ≠ "Password not found in known data breaches" := by
    rcases h with rfl | ⟨n, rfl⟩ | ⟨s, b, rfl, hs⟩
    · exact ⟨_, rfl, by decide⟩
    · exact ⟨_, rfl, requestErrMsg_ne_notFound n⟩
    · refine ⟨_, ?_, apiStatusMsg_ne_notFound s⟩
      simp [check_pwned_password, hs]
  obtain ⟨m, hm, hne⟩ := hc
  simp only [full_analysis, hm, List.filter_append,
    filter_patternPenaltyList_breach]
  refine ⟨by trivial, by trivial, by exact hne, by trivial, ?_, ?_⟩
  · by_cases hcom : (check_common_password cache password).1 <;>
      simp +decide [hcom, List.filter]
  · simp

/-- Witness for C7: a 404 response. -/
theorem C7_witness :
    (ApiOutcome.success 404 ([] : List String) = ApiOutcome.timeout ∨
      (∃ n, ApiOutcome.success 404 ([] : List String) =
        ApiOutcome.requestError n) ∨
      ∃ s b, ApiOutcome.success 404 ([] : List String) =
        ApiOutcome.success s b ∧ s ≠ 200) ∧
    ((check_pwned_password "" (ApiOutcome.success 404 [])).1 = false ∧
     (check_pwned_password "" (ApiOutcome.success 404 [])).2.2 = 0 ∧
     (check_pwned_password "" (ApiOutcome.success 404 [])).2.1 ≠
       "Password not found in known data breaches" ∧
     (full_analysis [] "" (ApiOutcome.success 404 []) "pw").is_pwned =
       false ∧
     (full_analysis [] "" (ApiOutcome.success 404 []) "pw").penalties.filter
       (fun p => p.type == "Data Breach") = [] ∧
     (full_analysis [] "" (ApiOutcome.success 404 []) "pw").total_penalty =
       (detect_weak_patterns KEYBOARD_PATTERNS "pw").total_penalty +
         (if (check_common_password [] "pw").1 then 50 else 0)) :=
  ⟨Or.inr (Or.inr ⟨404, [], rfl, by decide⟩),
   C7_breach_failure_fail_open [] "" "pw" (ApiOutcome.success 404 [])
     (Or.inr (Or.inr ⟨404, [], rfl, by decide⟩))⟩

theorem dwp_total_zero (pats : List String) (password : String)
    (h : (detect_weak_patterns pats password).has_patterns = false) :
    (detect_weak_patterns pats password).total_penalty = 0 := by
  simp only [detect_weak_patterns, List.any_cons, List.any_nil,
    Bool.or_eq_false_iff, Bool.not_eq_false'] at h
  obtain ⟨h1, h2, h3, h4, _⟩ := h
  simp only [detect_weak_patterns, List.foldl, h1, h2, h3, h4, if_true]

theorem check_password_length_passed_ge (password : String)
    (h : (check_password_length password).1 = true) :
    15 ≤ (check_password_length password).2.1 := by
  revert h
  simp only [check_password_length]
  split_ifs <;> simp

theorem check_uppercase_passed_ge (password : String)
    (h : (check_uppercase password).1 = true) :
    15 ≤ (check_uppercase password).2.1 := by
  revert h
  simp only [check_uppercase]
  split_ifs <;> simp

theorem check_lowercase_passed_ge (password : String)
    (h : (check_lowercase password).1 = true) :
    15 ≤ (check_lowercase password).2.1 := by
  revert h
  simp only [check_lowercase]
  split_ifs <;> simp

theorem check_digits_passed_ge (password : String)
    (h : (check_digits password).1 = true) :
    20 ≤ (check_digits password).2.1 := by
  revert h
  simp only [check_digits]
  split_ifs <;> simp

theorem check_special_characters_passed_ge (password : String)
    (h : (check_special_characters password).1 = true) :
    20 ≤ (check_special_characters password).2.1 := by
  revert h
  simp only [check_special_characters]
  split_ifs <;> simp

theorem exists_failed_of_base_lt (password : String)
    (h : (namedChecks password).foldl (fun acc nc => acc + nc.2.2.1) 0 < 80) :
    ∃ c ∈ (namedChecks password).map
        (fun nc => CheckResult.mk nc.1 nc.2.1 nc.2.2.1 nc.2.2.2),
      c.passed = false ∧ recForFailedCheck password c.name ≠ [] := by
  rw [namedChecks_base_score] at h
  by_cases h1 : (check_password_length password).1 = true
  · by_cases h2 : (check_uppercase password).1 = true
    · by_cases h3 : (check_lowercase password).1 = true
      · by_cases h4 : (check_digits password).1 = true
        · by_cases h5 : (check_special_characters password).1 = true
          · exfalso
            have g1 := check_password_length_passed_ge password h1
            have g2 := check_uppercase_passed_ge password h2
            have g3 := check_lowercase_passed_ge password h3
            have g4 := check_digits_passed_ge password h4
            have g5 := check_special_characters_passed_ge password h5
            omega
          · refine ⟨CheckResult.mk "Special Chars"
              (check_special_characters password).1
              (check_special_characters password).2.1
              (check_special_characters password).2.2, ?_, ?_, ?_⟩
            · simp [namedChecks]
            · simpa using h5
            · simp [recForFailedCheck]
        · refine ⟨CheckResult.mk "Digits" (check_digits password).1
            (check_digits password).2.1 (check_digits password).2.2,
            ?_, ?_, ?_⟩
          · simp [namedChecks]
          · simpa using h4
          · simp [recForFailedCheck]
      · refine ⟨CheckResult.mk "Lowercase" (check_lowercase password).1
          (check_lowercase password).2.1 (check_lowercase password).2.2,
          ?_, ?_, ?_⟩
        · simp [namedChecks]
        · simpa using h3
        · simp [recForFailedCheck]
    · refine ⟨CheckResult.mk "Uppercase" (check_uppercase password).1
        (check_uppercase password).2.1 (check_uppercase password).2.2,
        ?_, ?_, ?_⟩
      · simp [namedChecks]
      · simpa using h2
      · simp [recForFailedCheck]
  · refine ⟨CheckResult.mk "Length" (check_password_length password).1
      (check_password_length password).2.1 (check_password_length password).2.2,
      ?_, ?_, ?_⟩
    · simp [namedChecks]
    · simpa using h1
    · simp [recForFailedCheck]

theorem recFold_eq_nil (password : String) :
    ∀ (l : List CheckResult) (acc : List String),
      l.foldl (fun acc c => if c.passed then acc
        else acc ++ recForFailedCheck password c.name) acc = [] →
      acc = [] ∧
        ∀ c ∈ l, c.passed = true ∨ recForFailedCheck password c.name = []
  | [], _, h => ⟨h, by simp⟩
  | c :: l, acc, h => by
    have ih := recFold_eq_nil password l
      (if c.passed then acc else acc ++ recForFailedCheck password c.name) h
    constructor
    · by_cases hp : c.passed
      · have h0 := ih.1
        rwa [if_pos hp] at h0
      · have h0 := ih.1
        rw [if_neg hp] at h0
        exact (List.append_eq_nil.mp h0).1
    · intro c' hc'
      rcases List.mem_cons.mp hc' with rfl | hm
      · by_cases hp : c'.passed
        · exact Or.inl hp
        · have h0 := ih.1
          rw [if_neg hp] at h0
          exact Or.inr (List.append_eq_nil.mp h0).2
      · exact ih.2 c' hm

theorem generate_recommendations_ne_nil (password : String)
    (checks : List CheckResult) (hwp is_common is_pwned : Bool)
    (cnt : Nat) (entropy : ℝ) (final : Int)
    (h : (∃ c ∈ checks, c.passed = false ∧
            recForFailedCheck password c.name ≠ []) ∨
         hwp = true ∨ is_common = true ∨ is_pwned = true) :
    generate_recommendations password checks hwp is_common is_pwned cnt
      entropy final ≠ [] := by
  intro hnil
  simp only [generate_recommendations] at hnil
  obtain ⟨h4, _⟩ := List.append_eq_nil.mp hnil
  obtain ⟨h3, _⟩ := List.append_eq_nil.mp h4
  obtain ⟨h2, hb3⟩ := List.append_eq_nil.mp h3
  obtain ⟨h1, hb2⟩ := List.append_eq_nil.mp h2
  obtain ⟨h0, hb1⟩ := List.append_eq_nil.mp h1
  rcases h with ⟨c, hc, hcp, hcr⟩ | hh | hh | hh
  · obtain ⟨-, hall⟩ := recFold_eq_nil password checks [] h0
    rcases hall c hc with hp | hr
    · rw [hcp] at hp; exact Bool.false_ne_true hp
    · exact hcr hr
  · rw [hh] at hb1; simp at hb1
  · rw [hh] at hb2; simp at hb2
  · rw [hh] at hb3; simp at hb3

/-- Claim C5: the analysis generates recommendations exactly when
`final_score < 80` or the password is common or breached; otherwise the
recommendation list is empty. -/
theorem C5_recommendation_gate (cache : List String) (sha1hex : String)
    (outcome : ApiOutcome) (password : String) :
    (full_analysis cache sha1hex outcome password).recommendations ≠ [] ↔
      ((full_analysis cache sha1hex outcome password).final_score < 80 ∨
       (full_analysis cache sha1hex outcome password).is_common = true ∨
       (full_analysis cache sha1hex outcome password).is_pwned = true) := by
  simp only [full_analysis]
  constructor
  · intro hne
    by_contra hg
    rw [if_neg hg] at hne
    exact hne rfl
  · intro hg
    rw [if_pos hg]
    apply generate_recommendations_ne_nil
    by_cases hcb : (check_common_password cache password).1 = true
    · exact Or.inr (Or.inr (Or.inl hcb))
    · by_cases hpb : (check_pwned_password sha1hex outcome).1 = true
      · exact Or.inr (Or.inr (Or.inr hpb))
      · by_cases hwp :
          (detect_weak_patterns KEYBOARD_PATTERNS password).has_patterns = true
        · exact Or.inr (Or.inl hwp)
        · left
          apply exists_failed_of_base_lt
          rcases hg with hf | hc | hp
          · have h0 : (detect_weak_patterns KEYBOARD_PATTERNS
                password).total_penalty = 0 := by
              apply dwp_total_zero
              revert hwp
              cases (detect_weak_patterns KEYBOARD_PATTERNS
                password).has_patterns <;> simp
            have hcb' : (check_common_password cache password).1 = false := by
              revert hcb
              cases (check_common_password cache password).1 <;> simp
            have hpb' : (check_pwned_password sha1hex outcome).1 = false := by
              revert hpb
              cases (check_pwned_password sha1hex outcome).1 <;> simp
            rw [h0, hcb', hpb'] at hf
            simp only [Bool.false_eq_true, if_false] at hf
            have h2 := lt_of_le_of_lt (le_max_right _ _) hf
            push_cast at h2
            omega
          · exact absurd hc hcb
          · exact absurd hp hpb

end PSC
